import Mathlib

/-!
Verification of the core of the WorkOS Rust client: the shared JWKS cache
(`src/user_management.rs`, `src/workos.rs`) and the events listing
operation (`src/events/operations/list_events.rs`).

Machinery of the repository that is not under `src/` (the `RemoteJwkSet`
value type, the `get_jwks_url` derivation, `PaginationParams`, `EventName`,
`PaginatedList` and the serde wire behaviour) is modelled from the spec;
each such definition says so in its doc comment.  Everything else is a
direct shallow embedding of the Rust source.
-/

namespace WorkOsSpec

/-- A parsed URL (the external `url::Url`), abstracted to its textual form. -/
structure Url where
  raw : String
deriving DecidableEq, Repr

/-- A URL parse failure (the external `url::ParseError`), abstracted to a
numeric code distinguishing the variants. -/
structure UrlParseError where
  code : Nat
deriving DecidableEq, Repr

/-- A client identifier (`crate::sso::ClientId`), a string wrapper. -/
structure ClientId where
  raw : String
deriving DecidableEq, Repr

/-- Modelled from the spec: `RemoteJwkSet` is repository code outside
`src/`.  Per spec §3 a key set is an immutable value object determined by
its derivation input; `RemoteJwkSet::new(client, url)` constructs it from
the shared transport client (an external collaborator, not modelled) and
the key-set URL, so the value is identified by its source URL. -/
structure RemoteJwkSet where
  sourceUrl : Url
deriving DecidableEq, Repr

/-- Constructor `RemoteJwkSet::new`: building the key-set value for a URL.
Each evaluation of this step is what the spec counts as one remote fetch. -/
def RemoteJwkSet.new (u : Url) : RemoteJwkSet :=
  ⟨u⟩

/-- Embedding of `JwksError` (`src/user_management.rs` lines 19-32):
missing client ID, mutex poisoning (carrying the rendered lock-error
message), or a URL parse error converted via `#[from]`. -/
inductive JwksError
  | MissingClientId
  | Poison (msg : String)
  | Url (e : UrlParseError)
deriving DecidableEq, Repr

/-- State of the shared key-set slot `Arc<Mutex<Option<RemoteJwkSet>>>`:
`poisoned = some msg` models a poisoned mutex whose lock error renders to
`msg`; `slot` is the `Option<RemoteJwkSet>` contents. -/
structure JwksCacheState where
  poisoned : Option String
  slot : Option RemoteJwkSet
deriving DecidableEq, Repr

/-- Outcome of one `UserManagement::jwks` call: the value returned to the
caller, the state of the shared slot after the call, and the number of
remote key-set fetches the call performed. -/
structure JwksCallResult where
  res : Except JwksError RemoteJwkSet
  state : JwksCacheState
  fetches : Nat

/-- Shallow embedding of `UserManagement::jwks` (`src/user_management.rs`
lines 52-72).  The mutex is held for the entire body, so one call is one
atomic critical section.  `getJwksUrl` abstracts the deterministic,
fallible `get_jwks_url` derivation (repository code outside `src/`;
spec §6: the key-set URL is derived deterministically from a client
identifier) and `clientId` is `self.workos.client_id()`.  The step order
follows the source exactly: lock acquisition (poison check), populated-slot
check, client-id check, URL derivation, fetch-and-store. -/
def jwks (getJwksUrl : ClientId → Except UrlParseError Url)
    (clientId : Option ClientId) (s : JwksCacheState) : JwksCallResult :=
  match s.poisoned with
  | some msg => ⟨.error (.Poison msg), s, 0⟩
  | none =>
    match s.slot with
    | some k => ⟨.ok k, s, 0⟩
    | none =>
      match clientId with
      | none => ⟨.error .MissingClientId, s, 0⟩
      | some cid =>
        match getJwksUrl cid with
        | .error e => ⟨.error (.Url e), s, 0⟩
        | .ok u => ⟨.ok (RemoteJwkSet.new u), ⟨none, some (RemoteJwkSet.new u)⟩, 1⟩

/-- The jwks slot state produced by `WorkOsBuilder::build` (`src/workos.rs`
lines 145-158): `jwks: Arc::new(Mutex::new(None))`, a fresh unpoisoned
mutex holding an empty slot. -/
def buildInitialJwksState : JwksCacheState :=
  ⟨none, none⟩

/-- Sequential composition of `n` identical `jwks` calls, collecting every
caller's result, the final slot state, and the total number of remote
fetches.  Because the mutex is held across the whole body of `jwks`, each
call is one atomic step, so every interleaving of `n` concurrent callers
on the same client is some serialization of `n` such calls; the callers
being identical, the serialization order is irrelevant and this function
is the semantics of `n` concurrent first-time callers. -/
def jwksRunN (g : ClientId → Except UrlParseError Url) (c : Option ClientId) :
    Nat → JwksCacheState → List (Except JwksError RemoteJwkSet) × JwksCacheState × Nat
  | 0, s => ([], s, 0)
  | n + 1, s =>
    let r := jwks g c s
    let rest := jwksRunN g c n r.state
    (r.res :: rest.1, rest.2.1, r.fetches + rest.2.2)

/-- One `jwks` invocation as an opaque operation on the shared slot: the
URL derivation in effect and the configured client identifier. -/
structure JwksCall where
  getUrl : ClientId → Except UrlParseError Url
  clientId : Option ClientId

/-- Run a sequence of `jwks` calls against the shared slot, returning the
final slot state.  The slot is mutated by no other operation of the
repository. -/
def jwksRunCalls : List JwksCall → JwksCacheState → JwksCacheState
  | [], s => s
  | c :: cs, s => jwksRunCalls cs (jwks c.getUrl c.clientId s).state

/-- Modelled from the spec: the real `get_jwks_url` derivation, outside
`src/`, derives the key-set endpoint deterministically from the client
identifier (spec §6).  Used as a concrete successful derivation. -/
def gDefault : ClientId → Except UrlParseError Url :=
  fun cid => .ok ⟨"https://api.workos.com/sso/jwks/" ++ cid.raw⟩

/-- A concrete failing URL derivation, for exercising the error path. -/
def gFail : ClientId → Except UrlParseError Url :=
  fun _ => .error ⟨0⟩

/-- A concrete client identifier. -/
def cid0 : ClientId :=
  ⟨"client_01"⟩

/-- The key-set URL `gDefault` derives for `cid0`. -/
def url0 : Url :=
  ⟨"https://api.workos.com/sso/jwks/" ++ cid0.raw⟩

/-- A concrete successful `jwks` call description. -/
def callOk : JwksCall :=
  ⟨gDefault, some cid0⟩

/-- Modelled from the spec: `EventName` is repository code outside `src/`.
Per spec §3 and §9 an identity tag is a known-or-unknown union whose
serialization always emits the raw wire string; the three known names are
the ones used by the source file's doc example and test. -/
inductive EventName
  | DsyncUserCreated
  | DsyncUserUpdated
  | DsyncUserDeleted
  | Unknown (raw : String)
deriving DecidableEq, Repr

/-- Wire string an event name serializes to (spec §9: serialization always
emits the raw string). -/
def EventName.wire : EventName → String
  | .DsyncUserCreated => "dsync.user.created"
  | .DsyncUserUpdated => "dsync.user.updated"
  | .DsyncUserDeleted => "dsync.user.deleted"
  | .Unknown raw => raw

/-- Embedding of `EventFilters` (`src/events/operations/list_events.rs`
lines 10-17): a newtype over an ordered list of event names. -/
structure EventFilters where
  filters : List EventName
deriving DecidableEq, Repr

/-- Embedding of `EventFilters::is_empty` (`src/events/operations/list_events.rs`
lines 19-23). -/
def EventFilters.is_empty (f : EventFilters) : Bool :=
  f.filters.isEmpty

/-- Modelled from the spec: pagination order, `asc` or `desc` (spec §3). -/
inductive PaginationOrder
  | asc
  | desc
deriving DecidableEq, Repr

/-- Wire string of a pagination order. -/
def PaginationOrder.wire : PaginationOrder → String
  | .asc => "asc"
  | .desc => "desc"

/-- Modelled from the spec: `PaginationParams` is repository code outside
`src/`; per spec §3 it is `{order: asc|desc, limit, after, before}` with
the last three optional, and per the source test the default serializes
`order=desc`. -/
structure PaginationParams where
  order : PaginationOrder
  limit : Option Nat
  after : Option String
  before : Option String
deriving DecidableEq, Repr

/-- The `Default::default()` pagination: `order = desc`, nothing else. -/
def PaginationParams.default : PaginationParams :=
  ⟨.desc, none, none, none⟩

/-- Serialization of one optional scalar field: omitted when absent,
rendered as a single pair when present (spec §4.2 rule 3). -/
def optEntry (k : String) (v : Option String) : List (String × String) :=
  match v with
  | none => []
  | some s => [(k, s)]

/-- Query pairs contributed by the flattened pagination fields. -/
def PaginationParams.toQuery (p : PaginationParams) : List (String × String) :=
  ("order", p.order.wire) ::
    (optEntry "limit" (p.limit.map toString) ++ optEntry "after" p.after ++
      optEntry "before" p.before)

/-- Embedding of `ListEventsParams` (`src/events/operations/list_events.rs`
lines 26-48): flattened pagination, the `events[]` filter list, and three
optional scalars. -/
structure ListEventsParams where
  pagination : PaginationParams
  events : EventFilters
  organization_id : Option String
  range_start : Option String
  range_end : Option String
deriving DecidableEq, Repr

/-- The pair a single event filter value serializes to. -/
def eventsPair (e : EventName) : String × String :=
  ("events[]", e.wire)

/-- Serialization of `ListEventsParams` into query pairs, following the
serde attributes on the struct (`src/events/operations/list_events.rs`
lines 26-48) under reqwest's query serializer: `#[serde(flatten)]` inlines
the pagination fields in place; `#[serde(rename = "events[]",
skip_serializing_if = "EventFilters::is_empty")]` renders the filter list
as one repeated entry per value under the single key `events[]`, in input
order, and omits the field entirely when the list is empty; `Option`
fields are omitted when `None`. -/
def ListEventsParams.toQuery (p : ListEventsParams) : List (String × String) :=
  p.pagination.toQuery ++
    (if p.events.is_empty then [] else p.events.filters.map eventsPair) ++
    optEntry "organization_id" p.organization_id ++
    optEntry "range_start" p.range_start ++
    optEntry "range_end" p.range_end

/-- Test whether a query pair is an `events[]` entry. -/
def isEventsKey (kv : String × String) : Bool :=
  kv.1 == "events[]"

/-- Concrete parameters with an empty filter collection (and optional
scalars present, so the query is not trivially empty). -/
def emptyFilterParams : ListEventsParams :=
  ⟨PaginationParams.default, ⟨[]⟩, some "org_01EHZNVPK3SFK441A1RGBFSHRT", none, none⟩

/-- Concrete parameters carrying the three filters of the spec §8
end-to-end scenario. -/
def threeFilterParams : ListEventsParams :=
  ⟨PaginationParams.default,
    ⟨[.DsyncUserCreated, .DsyncUserUpdated, .DsyncUserDeleted]⟩, none, none, none⟩

/-- A minimal JSON value, for the response bodies the listing operation
deserializes. -/
inductive Json
  | null
  | bool (b : Bool)
  | num (n : Int)
  | str (s : String)
  | arr (elems : List Json)
  | obj (fields : List (String × Json))

/-- First-match lookup of a key among JSON object fields. -/
def lookupField : List (String × Json) → String → Option Json
  | [], _ => none
  | (k', v) :: rest, k => if k' = k then some v else lookupField rest k

/-- Field access on a JSON value: a lookup on objects, nothing otherwise. -/
def Json.get? : Json → String → Option Json
  | .obj fields, k => lookupField fields k
  | _, _ => none

/-- Modelled from the spec: `Event` is repository code outside `src/`;
domain-entity schemas are passthrough (spec §1), so an event is its
identifier plus its raw payload. -/
structure Event where
  id : String
  payload : Json

/-- Deserialize one event: the `id` field must be a string; the payload is
kept verbatim (passthrough deserialization). -/
def decodeEvent (j : Json) : Option Event :=
  match j.get? "id" with
  | some (.str s) => some ⟨s, j⟩
  | _ => none

/-- Modelled from the spec: the `list_metadata` of a list response,
carrying the optional `after` cursor (spec §6). -/
structure ListMetadata where
  after : Option String
deriving DecidableEq, Repr

/-- Modelled from the spec: `PaginatedList<T>` is repository code outside
`src/`; per spec §3 it is the returned page `{data, next_cursor}`, with
`next_cursor` kept under `list_metadata.after` as on the wire. -/
structure PaginatedList (α : Type) where
  data : List α
  list_metadata : ListMetadata

/-- The page's cursor for resuming iteration (spec §3 `next_cursor`). -/
def PaginatedList.nextCursor (p : PaginatedList α) : Option String :=
  p.list_metadata.after

/-- Deserialize the `after` cursor: JSON `null` is `none`, a string is
`some`, anything else is a deserialization failure. -/
def decodeAfter : Json → Option (Option String)
  | .null => some none
  | .str s => some (some s)
  | _ => none

/-- Deserialize `list_metadata`; a missing `after` field is an absent
optional. -/
def decodeListMetadata (j : Json) : Option ListMetadata :=
  match j.get? "after" with
  | none => some ⟨none⟩
  | some a => (decodeAfter a).map ListMetadata.mk

/-- Deserialize the elements of the `data` array in order, all-or-nothing,
as serde does for a `Vec`. -/
def decodeEvents : List Json → Option (List Event)
  | [] => some []
  | j :: rest =>
    match decodeEvent j, decodeEvents rest with
    | some e, some es => some (e :: es)
    | _, _ => none

/-- Deserialize a list response body `{data, list_metadata}` into a page:
the `data` array is decoded element by element in order, all-or-nothing,
and `list_metadata` is decoded as above. -/
def decodePaginatedList (j : Json) : Option (PaginatedList Event) :=
  match j.get? "data" with
  | some (.arr items) =>
    match j.get? "list_metadata" with
    | some meta =>
      match decodeEvents items, decodeListMetadata meta with
      | some evs, some m => some ⟨evs, m⟩
      | _, _ => none
    | _ => none
  | _ => none

/-- Shallow embedding of the response-handling tail of
`ListEvents::list_events` (`src/events/operations/list_events.rs` lines
98-117): the successful HTTP body is deserialized into
`PaginatedList<Event>` and returned to the caller unchanged. -/
def listEventsOfBody (body : Json) : Option (PaginatedList Event) :=
  decodePaginatedList body

/-- A concrete response body: one event, `after` null (end of stream). -/
def bodyLastPage : Json :=
  .obj [("object", .str "list"),
    ("data", .arr [.obj [("id", .str "event_1"), ("event", .str "dsync.user.created")]]),
    ("list_metadata", .obj [("after", .null)])]

/-- The event decoded from `bodyLastPage`'s single data element. -/
def event1 : Event :=
  ⟨"event_1", .obj [("id", .str "event_1"), ("event", .str "dsync.user.created")]⟩

/-- Running `jwks` any number of times against an unpoisoned populated slot
returns the stored value to every caller, leaves the slot unchanged, and
performs no fetch. -/
lemma jwksRunN_populated (g : ClientId → Except UrlParseError Url)
    (c : Option ClientId) (k : RemoteJwkSet) :
    (n : Nat) → jwksRunN g c n ⟨none, some k⟩ =
      (List.replicate n (.ok k), ⟨none, some k⟩, 0)
  | 0 => rfl
  | n + 1 => by
    simp [jwksRunN, jwks, jwksRunN_populated g c k n, List.replicate_succ]

/-- One `jwks` call never removes a stored value from the slot. -/
lemma jwks_slot_mono (g : ClientId → Except UrlParseError Url)
    (c : Option ClientId) (s : JwksCacheState) (k : RemoteJwkSet)
    (h : s.slot = some k) : (jwks g c s).state.slot = some k := by
  obtain ⟨p, sl⟩ := s
  cases p <;> simp_all [jwks]

/-- A sequence of `jwks` calls never removes a stored value from the slot. -/
lemma jwksRunCalls_slot_mono (calls : List JwksCall) :
    (s : JwksCacheState) → (k : RemoteJwkSet) → s.slot = some k →
      (jwksRunCalls calls s).slot = some k := by
  induction calls with
  | nil => intro s k h; exact h
  | cons c cs ih =>
    intro s k h
    exact ih _ _ (jwks_slot_mono c.getUrl c.clientId s k h)

/-- Running a concatenation of call sequences is running them in turn. -/
lemma jwksRunCalls_append (a b : List JwksCall) :
    (s : JwksCacheState) →
      jwksRunCalls (a ++ b) s = jwksRunCalls b (jwksRunCalls a s) := by
  induction a with
  | nil => intro s; rfl
  | cons c cs ih => intro s; simpa [jwksRunCalls] using ih _

/-- Claim C1: with the mutex held across the whole of `jwks`, any
interleaving of `n ≥ 2` concurrent first-time callers of the same client
is the sequential composition `jwksRunN`; starting from the freshly built
client state, with a client identifier configured and a succeeding URL
derivation, the run performs exactly one remote fetch in total and every
caller receives the same key-set value. -/
theorem jwks_single_flight (g : ClientId → Except UrlParseError Url)
    (cid : ClientId) (u : Url) (hg : g cid = .ok u) (n : Nat) (hn : 2 ≤ n) :
    jwksRunN g (some cid) n buildInitialJwksState =
      (List.replicate n (.ok (RemoteJwkSet.new u)),
        ⟨none, some (RemoteJwkSet.new u)⟩, 1) := by
  match n, hn with
  | n + 2, _ =>
    simp [jwksRunN, jwks, buildInitialJwksState, hg,
      jwksRunN_populated, List.replicate_succ]

/-- Witness for C1: three first-time callers on a fresh client, one fetch,
all three results equal. -/
theorem jwks_single_flight_witness :
    jwksRunN gDefault (some cid0) 3 buildInitialJwksState =
      (List.replicate 3 (.ok (RemoteJwkSet.new url0)),
        ⟨none, some (RemoteJwkSet.new url0)⟩, 1) :=
  jwks_single_flight gDefault cid0 url0 rfl 3 (by decide)

/-- Claim C2 counterexample: a client with no configured client identifier
whose slot mutex is poisoned: `jwks` acquires the lock first, so the call
fails with `Poison`, not with `MissingClientId` — refuting both the claimed
result and the claimed "check before any lock acquisition" ordering. -/
theorem jwks_missing_client_id_cex :
    (jwks gDefault none
        ⟨some "poisoned lock: another task failed inside", none⟩).res =
      .error (.Poison "poisoned lock: another task failed inside") ∧
      JwksError.Poison "poisoned lock: another task failed inside" ≠
        JwksError.MissingClientId :=
  ⟨rfl, by decide⟩

/-- Claim C2 (amended): for a client with no configured client identifier,
an unpoisoned lock, and an empty slot, `jwks` fails with `MissingClientId`;
the check happens after lock acquisition and the populated-slot check but
before any network activity (the call performs zero fetches and leaves the
state unchanged). -/
theorem jwks_missing_client_id (g : ClientId → Except UrlParseError Url)
    (s : JwksCacheState) (hp : s.poisoned = none) (hs : s.slot = none) :
    jwks g none s = ⟨.error .MissingClientId, s, 0⟩ := by
  obtain ⟨p, sl⟩ := s
  simp_all [jwks]

/-- Witness for C2 (amended): a freshly built client with no client
identifier. -/
theorem jwks_missing_client_id_witness :
    jwks gDefault none buildInitialJwksState =
      ⟨.error .MissingClientId, buildInitialJwksState, 0⟩ :=
  jwks_missing_client_id gDefault buildInitialJwksState rfl rfl

/-- Claim C3: starting from the slot state `WorkOsBuilder::build` creates,
once any prefix of a call sequence has populated the shared slot, no
continuation of the sequence ever stores an empty value back: the slot
still holds the same key set after every extension. -/
theorem jwks_populated_never_cleared (calls₁ calls₂ : List JwksCall)
    (k : RemoteJwkSet)
    (h : (jwksRunCalls calls₁ buildInitialJwksState).slot = some k) :
    (jwksRunCalls (calls₁ ++ calls₂) buildInitialJwksState).slot = some k := by
  rw [jwksRunCalls_append]
  exact jwksRunCalls_slot_mono calls₂ _ k h

/-- Witness for C3: one populating call followed by a successful call and a
degenerate call (no identifier, failing derivation); the slot keeps its
value. -/
theorem jwks_populated_never_cleared_witness :
    (jwksRunCalls ([callOk] ++ [callOk, ⟨gFail, none⟩])
        buildInitialJwksState).slot = some (RemoteJwkSet.new url0) :=
  jwks_populated_never_cleared [callOk] [callOk, ⟨gFail, none⟩]
    (RemoteJwkSet.new url0) rfl

/-- Claim C4: a `jwks` call that performs a fetch has returned the freshly
stored key set, and every subsequent call — whatever URL derivation or
client identifier is then in effect — performs zero fetches and returns
that same stored value. -/
theorem jwks_cache_stability (g : ClientId → Except UrlParseError Url)
    (c : Option ClientId) (s : JwksCacheState)
    (h : (jwks g c s).fetches = 1)
    (g' : ClientId → Except UrlParseError Url) (c' : Option ClientId)
    (n : Nat) :
    ∃ k, (jwks g c s).res = .ok k ∧ (jwks g c s).state = ⟨none, some k⟩ ∧
      jwksRunN g' c' n (jwks g c s).state =
        (List.replicate n (.ok k), ⟨none, some k⟩, 0) := by
  obtain ⟨p, sl⟩ := s
  cases p with
  | some msg => simp [jwks] at h
  | none =>
    cases sl with
    | some k => simp [jwks] at h
    | none =>
      cases c with
      | none => simp [jwks] at h
      | some cid =>
        cases hg : g cid with
        | error e => simp [jwks, hg] at h
        | ok u =>
          refine ⟨RemoteJwkSet.new u, ?_, ?_, ?_⟩ <;>
            simp [jwks, hg, jwksRunN_populated]

/-- Witness for C4: a populating call on a fresh client, then two further
calls with a failing derivation and no identifier; both return the cached
value with zero fetches. -/
theorem jwks_cache_stability_witness :
    ∃ k, (jwks gDefault (some cid0) buildInitialJwksState).res = .ok k ∧
      (jwks gDefault (some cid0) buildInitialJwksState).state =
        ⟨none, some k⟩ ∧
      jwksRunN gFail none 2 (jwks gDefault (some cid0) buildInitialJwksState).state =
        (List.replicate 2 (.ok k), ⟨none, some k⟩, 0) :=
  jwks_cache_stability gDefault (some cid0) buildInitialJwksState rfl gFail none 2

/-- Claim C5: on a cache miss, a failing URL derivation propagates its
error to the caller unchanged (wrapped by the `#[from]` conversion into
`JwksError::Url`), performs no fetch, and leaves the slot state unchanged
— so a later call against the same (still empty) slot with a succeeding
derivation fetches and populates normally. -/
theorem jwks_fetch_error_retry (g g' : ClientId → Except UrlParseError Url)
    (cid cid' : ClientId) (e : UrlParseError) (u : Url)
    (hg : g cid = .error e) (hg' : g' cid' = .ok u) :
    jwks g (some cid) buildInitialJwksState =
      ⟨.error (.Url e), buildInitialJwksState, 0⟩ ∧
      jwks g' (some cid') buildInitialJwksState =
        ⟨.ok (RemoteJwkSet.new u), ⟨none, some (RemoteJwkSet.new u)⟩, 1⟩ := by
  constructor <;> simp [jwks, buildInitialJwksState, hg, hg']

/-- Witness for C5: a failing derivation then a succeeding retry on the
same empty slot. -/
theorem jwks_fetch_error_retry_witness :
    jwks gFail (some cid0) buildInitialJwksState =
      ⟨.error (.Url ⟨0⟩), buildInitialJwksState, 0⟩ ∧
      jwks gDefault (some cid0) buildInitialJwksState =
        ⟨.ok (RemoteJwkSet.new url0), ⟨none, some (RemoteJwkSet.new url0)⟩, 1⟩ :=
  jwks_fetch_error_retry gFail gDefault cid0 cid0 ⟨0⟩ url0 rfl rfl

/-- Claim C6: when the slot mutex is poisoned, `jwks` returns the distinct
error `JwksError::Poison` carrying the lock error's rendered message,
mutates nothing and performs no fetch — whatever the slot contents, the
derivation, or the configured identifier. -/
theorem jwks_poison_error (g : ClientId → Except UrlParseError Url)
    (c : Option ClientId) (s : JwksCacheState) (msg : String)
    (h : s.poisoned = some msg) :
    jwks g c s = ⟨.error (.Poison msg), s, 0⟩ := by
  obtain ⟨p, sl⟩ := s
  simp_all [jwks]

/-- Witness for C6: a poisoned mutex over an already populated slot still
surfaces the poison error. -/
theorem jwks_poison_error_witness :
    jwks gDefault (some cid0)
        ⟨some "poisoned lock: another task failed inside",
          some (RemoteJwkSet.new url0)⟩ =
      ⟨.error (.Poison "poisoned lock: another task failed inside"),
        ⟨some "poisoned lock: another task failed inside",
          some (RemoteJwkSet.new url0)⟩, 0⟩ :=
  jwks_poison_error gDefault (some cid0)
    ⟨some "poisoned lock: another task failed inside",
      some (RemoteJwkSet.new url0)⟩
    "poisoned lock: another task failed inside" rfl

/-- Claim C10: when the slot is populated under an unpoisoned lock, `jwks`
returns the cached value with zero fetches for every configured client
identifier — including none at all: the `MissingClientId` check is only
reached on a cache miss. -/
theorem jwks_hit_ignores_client_id (g : ClientId → Except UrlParseError Url)
    (c : Option ClientId) (s : JwksCacheState) (k : RemoteJwkSet)
    (hp : s.poisoned = none) (hs : s.slot = some k) :
    jwks g c s = ⟨.ok k, s, 0⟩ := by
  obtain ⟨p, sl⟩ := s
  simp_all [jwks]

/-- Witness for C10: a populated client with no client identifier and a
failing derivation still succeeds from cache. -/
theorem jwks_hit_ignores_client_id_witness :
    jwks gFail none ⟨none, some (RemoteJwkSet.new url0)⟩ =
      ⟨.ok (RemoteJwkSet.new url0), ⟨none, some (RemoteJwkSet.new url0)⟩, 0⟩ :=
  jwks_hit_ignores_client_id gFail none ⟨none, some (RemoteJwkSet.new url0)⟩
    (RemoteJwkSet.new url0) rfl rfl

/-- An optional scalar entry under a key other than `events[]` contributes
no `events[]` pair. -/
lemma filter_optEntry (k : String) (v : Option String)
    (hk : (k == "events[]") = false) :
    (optEntry k v).filter isEventsKey = [] := by
  cases v <;> simp [optEntry, isEventsKey, hk]

/-- The pagination fields contribute no `events[]` pair. -/
lemma filter_pagination (pg : PaginationParams) :
    pg.toQuery.filter isEventsKey = [] := by
  obtain ⟨od, lim, af, bf⟩ := pg
  cases od <;> cases lim <;> cases af <;> cases bf <;> rfl

/-- Every serialized filter entry carries the `events[]` key, so filtering
for that key keeps the rendered list intact. -/
lemma filter_eventsPairs (l : List EventName) :
    (l.map eventsPair).filter isEventsKey = l.map eventsPair := by
  induction l with
  | nil => rfl
  | cons a t ih => simp [eventsPair, isEventsKey, ih]

/-- The `events[]` entries of a serialized `ListEventsParams`: none when
the filter collection is empty, otherwise exactly the rendered filters. -/
lemma toQuery_filter_eventsKey (p : ListEventsParams) :
    p.toQuery.filter isEventsKey =
      if p.events.is_empty then [] else p.events.filters.map eventsPair := by
  obtain ⟨pg, ev, org, rs, re⟩ := p
  simp only [ListEventsParams.toQuery, List.filter_append, filter_pagination,
    filter_optEntry "organization_id" org (by decide),
    filter_optEntry "range_start" rs (by decide),
    filter_optEntry "range_end" re (by decide),
    List.append_nil, List.nil_append]
  split
  · simp
  · exact filter_eventsPairs _

/-- Claim C7: when the events filter collection is empty, the serialized
query of `ListEventsParams` contains no `events[]` entry at all — the
field is omitted outright, not rendered empty. -/
theorem list_events_empty_filter_omitted (p : ListEventsParams)
    (h : p.events.is_empty = true) :
    p.toQuery.filter isEventsKey = [] := by
  simp [toQuery_filter_eventsKey, h]

/-- Witness for C7: parameters with an empty filter list (and an
organization filter present) yield a query without any `events[]` key. -/
theorem list_events_empty_filter_omitted_witness :
    emptyFilterParams.toQuery.filter isEventsKey = [] :=
  list_events_empty_filter_omitted emptyFilterParams rfl

/-- Claim C8: for a non-empty filter list, serialization renders exactly
one `events[]` entry per filter value, all under that single key, in input
order: the `events[]` entries of the query are precisely the rendered
filter list. -/
theorem list_events_filter_order (p : ListEventsParams)
    (h : p.events.filters ≠ []) :
    p.toQuery.filter isEventsKey = p.events.filters.map eventsPair := by
  have hb : p.events.is_empty = false := by
    cases hf : p.events.filters with
    | nil => exact absurd hf h
    | cons a t => simp [EventFilters.is_empty, hf]
  simp [toQuery_filter_eventsKey, hb]

/-- Witness for C8: the three filters of the spec scenario serialize to
three repeated `events[]` entries in input order. -/
theorem list_events_filter_order_witness :
    threeFilterParams.toQuery.filter isEventsKey =
      threeFilterParams.events.filters.map eventsPair :=
  list_events_filter_order threeFilterParams (by decide)

/-- Claim C9: a successful `list_events` call returns exactly the
deserialized response: for any body whose `data` field is an array
decoding in order to `evs` and whose `list_metadata.after` decodes to
`cursor`, the returned page is `⟨evs, ⟨cursor⟩⟩` — data in the
server-supplied order and `next_cursor` equal to `list_metadata.after` —
and a `null` `after` yields an absent next cursor, signaling no further
pages. -/
theorem list_events_page_is_response (body : Json) (items : List Json)
    (evs : List Event) (afterJson : Json) (cursor : Option String)
    (hdata : body.get? "data" = some (.arr items))
    (hmeta : body.get? "list_metadata" = some (.obj [("after", afterJson)]))
    (hitems : decodeEvents items = some evs)
    (hafter : decodeAfter afterJson = some cursor) :
    listEventsOfBody body = some ⟨evs, ⟨cursor⟩⟩ ∧
      (afterJson = .null →
        (PaginatedList.mk evs ⟨cursor⟩).nextCursor = none) := by
  constructor
  · unfold listEventsOfBody decodePaginatedList
    rw [hdata, hmeta]
    simp [hitems, decodeListMetadata, Json.get?, lookupField, hafter]
  · intro hnull
    subst hnull
    simp [decodeAfter] at hafter
    subst hafter
    rfl

/-- Witness for C9: a one-event body whose `after` is `null` yields the
page with that event and no next cursor. -/
theorem list_events_page_is_response_witness :
    listEventsOfBody bodyLastPage = some ⟨[event1], ⟨none⟩⟩ ∧
      (Json.null = Json.null →
        (PaginatedList.mk [event1] ⟨none⟩).nextCursor = none) :=
  list_events_page_is_response bodyLastPage
    [.obj [("id", .str "event_1"), ("event", .str "dsync.user.created")]]
    [event1] .null none rfl rfl rfl rfl

end WorkOsSpec
